import Mathlib

/-!
Shallow embedding of the RovingTabIndex focus-registry module
(`RovingTabIndex.tsx`): the reducer acting on `IState` with actions
`Register`, `Unregister`, `SetFocus`, and the keyboard handler
`onKeyDownHandler` of `RovingTabIndexProvider`.

Modelling choices:
* A `Ref` handle is modelled by its document position, a `Nat`: distinct
  focusable DOM elements occupy distinct positions in document order, and
  `a.compareDocumentPosition(b) & DOCUMENT_POSITION_PRECEDING ≠ 0` holds
  exactly when `b`'s position is smaller than `a`'s.  Reference identity
  (`===`) between registered handles then coincides with equality of
  positions.
* The nullable JS field `activeRef` becomes `Option Ref`; the JS values
  `null` and `undefined` (the latter arising only from an out-of-range
  array read such as `refs[-1]`) are both modelled by `none`, which is
  how every consumer of the field treats them (`activeRef === ref` and
  `refs.indexOf(activeRef)` behave identically on both).
* JS index arithmetic that can go negative (`right`, `indexOf` results)
  is carried out in `Int`.
-/

/-- Document position of a focusable element; stands for the DOM node a
React ref points at.  Distinct elements have distinct positions. -/
abbrev Ref := Nat

/-- The reducer state `IState { activeRef: Ref; refs: Ref[] }`. -/
structure IState where
  activeRef : Option Ref
  refs : List Ref
deriving Repr, DecidableEq

/-- The initial state of the provider: `{ activeRef: null, refs: [] }`. -/
def initialState : IState := { activeRef := none, refs := [] }

/-- Whether a list of handles is in strictly increasing document order,
the order the module's comment `refs: [] // list of refs in DOM order`
promises. -/
def docOrdered : List Ref → Bool
  | [] => true
  | [_] => true
  | a :: b :: rest => a < b && docOrdered (b :: rest)

/-- The `while (left <= right)` binary-search loop of the `Register`
case.  `left`/`index` stay non-negative so they are `Nat`; `right` can
reach `-1` so it is `Int`.  Each iteration sets `index` to the probed
midpoint; `elem === ref` (the probe found the handle already registered)
returns `none`, standing for the reducer's early `return state`, and
loop exit returns the refs list with `ref` spliced in at the final
`index` (`state.refs.splice(index, 0, ref)`).  The comparison
`ref.compareDocumentPosition(elem) & DOCUMENT_POSITION_PRECEDING` is
`elem < ref` on positions.  `fuel` only bounds the recursion; the search
space shrinks every iteration, so any `fuel > refs.length` is never
exhausted. -/
def registerLoop (refs : List Ref) (ref : Ref) : Nat → Nat → Int → Nat → Option (List Ref)
  | 0, _, _, index => some (refs.take index ++ ref :: refs.drop index)
  | fuel + 1, left, right, index =>
    if (left : Int) ≤ right then
      let index := (left + right.toNat) / 2
      let elem := refs.getD index 0
      if elem == ref then
        none
      else if elem < ref then
        registerLoop refs ref fuel (index + 1) right index
      else
        registerLoop refs ref fuel left ((index : Int) - 1) index
    else
      some (refs.take index ++ ref :: refs.drop index)

/-- The `Type.Register` case of the reducer: an empty registry adopts
the handle as `activeRef`; otherwise the binary search either detects
the handle (state returned unchanged) or splices it in at the computed
index, leaving `activeRef` untouched. -/
def registerOp (state : IState) (ref : Ref) : IState :=
  if state.refs.length == 0 then
    { activeRef := some ref, refs := [ref] }
  else
    match registerLoop state.refs ref (state.refs.length + 1) 0
        ((state.refs.length : Int) - 1) state.refs.length with
    | none => state
    | some newRefs => { state with refs := newRefs }

/-- The `Type.Unregister` case of the reducer.
`findIndex(r => r === ref)` is `findIdx? (· == ref)`; a miss returns the
state unchanged.  On a hit the handle is spliced out, and if the removed
element was `activeRef` the new `activeRef` is
`oldIndex >= len ? refs[len - 1] : refs[oldIndex]` read from the
shortened list (`len` its new length); the JS read `refs[-1]` on a now
empty list yields `undefined`, modelled `none`. -/
def unregisterOp (state : IState) (ref : Ref) : IState :=
  match state.refs.findIdx? (fun r => r == ref) with
  | none => state
  | some oldIndex =>
    let refs := state.refs.eraseIdx oldIndex
    if state.activeRef == some ref then
      let len := refs.length
      { activeRef := if oldIndex ≥ len then refs[len - 1]? else refs[oldIndex]?,
        refs := refs }
    else
      { state with refs := refs }

/-- The `Type.SetFocus` case of the reducer: unconditionally overwrites
`activeRef` with the action's handle. -/
def setFocusOp (state : IState) (ref : Ref) : IState :=
  { state with activeRef := some ref }

/-- The navigation keys the handler inspects (`Key.HOME`, `Key.END`,
`Key.ARROW_UP`, `Key.ARROW_DOWN`); `OTHER` is any other key. -/
inductive Key where
  | HOME
  | END
  | ARROW_UP
  | ARROW_DOWN
  | OTHER
deriving Repr, DecidableEq

/-- JS `refs.indexOf(activeRef)`: `-1` when `activeRef` is `null` or not
a registered handle, its first index otherwise. -/
def jsIndexOf (refs : List Ref) (activeRef : Option Ref) : Int :=
  match activeRef with
  | none => -1
  | some r =>
    match refs.findIdx? (fun x => x == r) with
    | none => -1
    | some i => (i : Int)

/-- Observable outcome of one `onKeyDownHandler` call: `focused` is the
handle whose DOM node gets `.focus()` (if any) and `handled` records
whether the handler claimed the event (`preventDefault`/
`stopPropagation`). -/
structure KeyDownResult where
  focused : Option Ref
  handled : Bool
deriving Repr, DecidableEq

/-- The provider's `onKeyDownHandler`, as a function of the provider
props `handleHomeEnd`/`handleUpDown`, the registry state, the event
target's `tagName` and the pressed key.  Events on `INPUT`/`TEXTAREA`
targets skip the whole switch.  Home/End focus the first/last handle
when any exist; ArrowUp/ArrowDown look up `indexOf(activeRef)` and focus
the neighbour when the index allows. -/
def onKeyDownHandler (handleHomeEnd handleUpDown : Bool) (state : IState)
    (tagName : String) (key : Key) : KeyDownResult :=
  if tagName != "INPUT" && tagName != "TEXTAREA" then
    match key with
    | Key.HOME =>
      if handleHomeEnd then
        { handled := true,
          focused := if 0 < state.refs.length then state.refs[0]? else none }
      else { focused := none, handled := false }
    | Key.END =>
      if handleHomeEnd then
        { handled := true,
          focused :=
            if 0 < state.refs.length then state.refs[state.refs.length - 1]?
            else none }
      else { focused := none, handled := false }
    | Key.ARROW_UP =>
      if handleUpDown then
        { handled := true,
          focused :=
            if 0 < state.refs.length then
              let idx := jsIndexOf state.refs state.activeRef
              if 0 < idx then state.refs[(idx - 1).toNat]? else none
            else none }
      else { focused := none, handled := false }
    | Key.ARROW_DOWN =>
      if handleUpDown then
        { handled := true,
          focused :=
            if 0 < state.refs.length then
              let idx := jsIndexOf state.refs state.activeRef
              if idx < (state.refs.length : Int) - 1 then
                state.refs[(idx + 1).toNat]?
              else none
            else none }
      else { focused := none, handled := false }
    | Key.OTHER => { focused := none, handled := false }
  else { focused := none, handled := false }

/-- Effect of a handler call on the registry: focusing a registered
element fires that component's `onFocus`, which dispatches `SetFocus`
for its handle; when nothing is focused the state is untouched. -/
def applyFocusResult (state : IState) (result : KeyDownResult) : IState :=
  match result.focused with
  | none => state
  | some ref => setFocusOp state ref

/-- Handles absent from the registry are not found by
`findIndex(r => r === ref)`. -/
theorem findIdx_eq_none_of_not_mem (l : List Ref) (ref : Ref) (h : ref ∉ l) :
    l.findIdx? (fun r => r == ref) = none :=
  List.findIdx?_eq_none_iff.mpr fun _ hx =>
    beq_eq_false_iff_ne.mpr fun hEq => h (hEq ▸ hx)

/-- C1: the claimed invariant fails on the code.  Starting from the
initial empty state, registering the handle at document position 1 and
then the handle at position 2 yields `refs = [2, 1]`, which is not
sorted by document position: the binary search of `Type.Register` never
advances `index` past a preceding element (the `left` branch updates
`left` but not `index`), so the splice lands one slot too early. -/
theorem register_breaks_document_order :
    (registerOp (registerOp initialState 1) 2).refs = [2, 1] ∧
    docOrdered [2, 1] = false := by
  decide

/-- C4: registering distinct handles in ascending document order does
not produce a document-ordered `orderedHandles`: registering positions
10, 20, 30 in that order yields `refs = [20, 30, 10]` instead of
`[10, 20, 30]`. -/
theorem register_ascending_not_sorted :
    (registerOp (registerOp (registerOp initialState 10) 20) 30).refs
      = [20, 30, 10] ∧
    docOrdered [20, 30, 10] = false := by
  decide

/-- C6: registering a duplicate handle is not always a no-op.  After
registering positions 1 then 2 the state is
`{ activeRef := some 1, refs := [2, 1] }`; registering 1 again changes
the state to `refs = [1, 2, 1]` — the binary search only detects a
duplicate when a probe happens to land on it, and on the (unsorted)
reachable list `[2, 1]` the single probe hits 2, so 1 is inserted a
second time. -/
theorem duplicate_register_not_noop :
    registerOp (registerOp (registerOp initialState 1) 2) 1
        = { activeRef := some 1, refs := [1, 2, 1] } ∧
    registerOp (registerOp initialState 1) 2
        = { activeRef := some 1, refs := [2, 1] } := by
  decide

/-- C7: registering into an empty registry (whatever `activeRef` holds)
installs the handle as the sole entry and makes it active: the first
handle ever registered becomes the active one. -/
theorem first_register_becomes_active (a : Option Ref) (ref : Ref) :
    registerOp { activeRef := a, refs := [] } ref
      = { activeRef := some ref, refs := [ref] } :=
  rfl

/-- C2 counterexample: `setFocus` on an unregistered handle is not a
no-op.  In the state `{ activeRef := some 1, refs := [1] }` the handle
at position 2 is unregistered, yet `SetFocus` with it changes the
state, setting `activeRef` to 2. -/
theorem setFocus_unregistered_changes_state :
    (2 : Ref) ∉ IState.refs { activeRef := some 1, refs := [1] } ∧
    setFocusOp { activeRef := some 1, refs := [1] } 2
      ≠ { activeRef := some 1, refs := [1] } := by
  decide

/-- C2 amended: for a handle not present in `orderedHandles`,
`unregister` is a silent no-op returning the state unchanged, while
`setFocus` raises no error but is not a no-op: it unconditionally sets
`activeHandle` to the given handle, leaving `orderedHandles`
unchanged. -/
theorem unregister_missing_noop_setFocus_unconditional (state : IState)
    (ref : Ref) (h : ref ∉ state.refs) :
    unregisterOp state ref = state ∧
    setFocusOp state ref = { activeRef := some ref, refs := state.refs } := by
  refine ⟨?_, rfl⟩
  unfold unregisterOp
  rw [findIdx_eq_none_of_not_mem state.refs ref h]

/-- Witness for C2's amended theorem at the state
`{ activeRef := some 1, refs := [1, 3] }` and the unregistered handle
2. -/
theorem unregister_missing_noop_setFocus_unconditional_witness :
    unregisterOp { activeRef := some 1, refs := [1, 3] } 2
        = { activeRef := some 1, refs := [1, 3] } ∧
    setFocusOp { activeRef := some 1, refs := [1, 3] } 2
        = { activeRef := some 2, refs := [1, 3] } :=
  unregister_missing_noop_setFocus_unconditional
    { activeRef := some 1, refs := [1, 3] } 2 (by decide)

/-- C3: unregistering the handle that is `activeHandle` (registered at
first index `i`) removes it and reassigns `activeHandle` to the handle
now occupying index `i`, or to the last handle when the removed index
was at the end, or to null when the registry became empty; the result
is always a registered handle or null. -/
theorem unregister_active_reassigns (state : IState) (ref : Ref) (i : Nat)
    (hIdx : state.refs.findIdx? (fun r => r == ref) = some i)
    (hAct : state.activeRef = some ref) :
    (unregisterOp state ref).refs = state.refs.eraseIdx i ∧
    (unregisterOp state ref).activeRef =
      (if i < (state.refs.eraseIdx i).length then (state.refs.eraseIdx i)[i]?
       else (state.refs.eraseIdx i)[(state.refs.eraseIdx i).length - 1]?) ∧
    (state.refs.eraseIdx i = [] → (unregisterOp state ref).activeRef = none) ∧
    (state.refs.eraseIdx i ≠ [] →
      ∃ r, (unregisterOp state ref).activeRef = some r ∧
        r ∈ state.refs.eraseIdx i) := by
  have hu : unregisterOp state ref =
      { activeRef :=
          if i ≥ (state.refs.eraseIdx i).length then
            (state.refs.eraseIdx i)[(state.refs.eraseIdx i).length - 1]?
          else (state.refs.eraseIdx i)[i]?,
        refs := state.refs.eraseIdx i } := by
    unfold unregisterOp
    rw [hIdx, hAct]
    simp
  rw [hu]
  refine ⟨rfl, ?_, ?_, ?_⟩
  · by_cases h : i < (state.refs.eraseIdx i).length
    · rw [if_neg (by omega), if_pos h]
    · rw [if_pos (by omega), if_neg h]
  · intro hnil
    rw [hnil]
    simp
  · intro hnil
    have hlen : 0 < (state.refs.eraseIdx i).length := List.length_pos.mpr hnil
    by_cases h : i < (state.refs.eraseIdx i).length
    · refine ⟨(state.refs.eraseIdx i)[i], ?_, List.getElem_mem h⟩
      simp [if_neg (by omega : ¬ i ≥ (state.refs.eraseIdx i).length),
        List.getElem?_eq_getElem h]
    · have hlt : (state.refs.eraseIdx i).length - 1
          < (state.refs.eraseIdx i).length := by omega
      refine ⟨(state.refs.eraseIdx i)[(state.refs.eraseIdx i).length - 1],
        ?_, List.getElem_mem hlt⟩
      simp [if_pos (by omega : i ≥ (state.refs.eraseIdx i).length),
        List.getElem?_eq_getElem hlt]

/-- Witness for C3 at `{ activeRef := some 2, refs := [1, 2, 3] }`,
unregistering the active handle 2 at index 1. -/
theorem unregister_active_reassigns_witness :
    (unregisterOp { activeRef := some 2, refs := [1, 2, 3] } 2).refs
        = [1, 2, 3].eraseIdx 1 ∧
    (unregisterOp { activeRef := some 2, refs := [1, 2, 3] } 2).activeRef
        = (if 1 < ([1, 2, 3].eraseIdx 1).length then ([1, 2, 3].eraseIdx 1)[1]?
           else ([1, 2, 3].eraseIdx 1)[([1, 2, 3].eraseIdx 1).length - 1]?) ∧
    ([1, 2, 3].eraseIdx 1 = [] →
      (unregisterOp { activeRef := some 2, refs := [1, 2, 3] } 2).activeRef
        = none) ∧
    ([1, 2, 3].eraseIdx 1 ≠ [] →
      ∃ r, (unregisterOp { activeRef := some 2, refs := [1, 2, 3] } 2).activeRef
          = some r ∧ r ∈ [1, 2, 3].eraseIdx 1) :=
  unregister_active_reassigns { activeRef := some 2, refs := [1, 2, 3] } 2 1
    (by decide) (by decide)

/-- C5: arrow navigation never moves past the ends.  Whatever the
provider props, the event target's tag and the pressed arrow key, when
`indexOf(activeRef)` is 0 an ArrowUp keydown focuses nothing and the
registry state is unchanged, and when it is the last index an ArrowDown
keydown likewise focuses nothing and leaves the state unchanged. -/
theorem moveFocus_stops_at_boundaries (hhe hud : Bool) (state : IState)
    (tag : String) :
    (jsIndexOf state.refs state.activeRef = 0 →
      (onKeyDownHandler hhe hud state tag Key.ARROW_UP).focused = none ∧
      applyFocusResult state (onKeyDownHandler hhe hud state tag Key.ARROW_UP)
        = state) ∧
    (jsIndexOf state.refs state.activeRef = (state.refs.length : Int) - 1 →
      (onKeyDownHandler hhe hud state tag Key.ARROW_DOWN).focused = none ∧
      applyFocusResult state (onKeyDownHandler hhe hud state tag Key.ARROW_DOWN)
        = state) := by
  constructor
  · intro h0
    have hfoc : (onKeyDownHandler hhe hud state tag Key.ARROW_UP).focused
        = none := by
      unfold onKeyDownHandler
      split
      · cases hud
        · rfl
        · simp [h0]
      · rfl
    refine ⟨hfoc, ?_⟩
    unfold applyFocusResult
    rw [hfoc]
  · intro hlast
    have hfoc : (onKeyDownHandler hhe hud state tag Key.ARROW_DOWN).focused
        = none := by
      unfold onKeyDownHandler
      split
      · cases hud
        · rfl
        · simp only [if_true]
          split
          · rw [hlast]
            simp
          · rfl
      · rfl
    refine ⟨hfoc, ?_⟩
    unfold applyFocusResult
    rw [hfoc]

/-- Witness for C5 at `{ activeRef := some 2, refs := [1, 2] }` (active
at the last index), pressing ArrowDown on a `DIV` target. -/
theorem moveFocus_stops_at_boundaries_witness :
    (onKeyDownHandler true true { activeRef := some 2, refs := [1, 2] } "DIV"
        Key.ARROW_DOWN).focused = none ∧
    applyFocusResult { activeRef := some 2, refs := [1, 2] }
        (onKeyDownHandler true true { activeRef := some 2, refs := [1, 2] } "DIV"
          Key.ARROW_DOWN)
      = { activeRef := some 2, refs := [1, 2] } :=
  (moveFocus_stops_at_boundaries true true
    { activeRef := some 2, refs := [1, 2] } "DIV").2 (by decide)

/-- C8: for every non-empty registry and non-input event target,
whatever `activeRef` holds, Home (under `handleHomeEnd`) focuses the
first handle and End the last one; and whenever `activeRef` is
registered at index `i` (under `handleUpDown`), ArrowUp at an index
above 0 focuses the handle at `i - 1` while ArrowDown below the last
index focuses the handle at `i + 1`. -/
theorem moveFocus_key_targets (hhe hud : Bool) (state : IState)
    (tag : String) (r : Ref) (i : Nat)
    (hIn : tag ≠ "INPUT") (hTa : tag ≠ "TEXTAREA") (hne : state.refs ≠ []) :
    (onKeyDownHandler true hud state tag Key.HOME).focused = state.refs[0]? ∧
    (onKeyDownHandler true hud state tag Key.END).focused
      = state.refs[state.refs.length - 1]? ∧
    (state.activeRef = some r →
      state.refs.findIdx? (fun x => x == r) = some i → 0 < i →
      (onKeyDownHandler hhe true state tag Key.ARROW_UP).focused
        = state.refs[i - 1]?) ∧
    (state.activeRef = some r →
      state.refs.findIdx? (fun x => x == r) = some i →
      (i : Int) < (state.refs.length : Int) - 1 →
      (onKeyDownHandler hhe true state tag Key.ARROW_DOWN).focused
        = state.refs[i + 1]?) := by
  have htag : (tag != "INPUT" && tag != "TEXTAREA") = true := by
    simp [bne_iff_ne, hIn, hTa]
  have hlen : 0 < state.refs.length := List.length_pos.mpr hne
  refine ⟨?_, ?_, ?_, ?_⟩
  · unfold onKeyDownHandler
    rw [if_pos htag]
    simp [hlen]
  · unfold onKeyDownHandler
    rw [if_pos htag]
    simp [hlen]
  · intro hAct hIdx hi
    have hjs : jsIndexOf state.refs state.activeRef = (i : Int) := by
      rw [hAct]
      simp [jsIndexOf, hIdx]
    unfold onKeyDownHandler
    rw [if_pos htag]
    simp only [if_true, if_pos hlen, hjs]
    rw [if_pos (by exact_mod_cast hi)]
    congr 1
    omega
  · intro hAct hIdx hi
    have hjs : jsIndexOf state.refs state.activeRef = (i : Int) := by
      rw [hAct]
      simp [jsIndexOf, hIdx]
    unfold onKeyDownHandler
    rw [if_pos htag]
    simp only [if_true, if_pos hlen, hjs]
    rw [if_pos hi, show ((i : Int) + 1).toNat = i + 1 by omega]

/-- Witness for C8 at `{ activeRef := some 2, refs := [1, 2, 3] }` with
the active handle registered at index 1, on a `DIV` target; every
hypothesis, including the inner ones of the arrow conjuncts, is
discharged concretely. -/
theorem moveFocus_key_targets_witness :
    (onKeyDownHandler true true { activeRef := some 2, refs := [1, 2, 3] } "DIV"
        Key.HOME).focused = [1, 2, 3][0]? ∧
    (onKeyDownHandler true true { activeRef := some 2, refs := [1, 2, 3] } "DIV"
        Key.END).focused = [1, 2, 3][([1, 2, 3] : List Ref).length - 1]? ∧
    (onKeyDownHandler true true { activeRef := some 2, refs := [1, 2, 3] } "DIV"
        Key.ARROW_UP).focused = [1, 2, 3][1 - 1]? ∧
    (onKeyDownHandler true true { activeRef := some 2, refs := [1, 2, 3] } "DIV"
        Key.ARROW_DOWN).focused = [1, 2, 3][1 + 1]? := by
  obtain ⟨h1, h2, h3, h4⟩ := moveFocus_key_targets true true
    { activeRef := some 2, refs := [1, 2, 3] } "DIV" 2 1
    (by decide) (by decide) (by decide)
  exact ⟨h1, h2, h3 rfl (by decide) (by decide), h4 rfl (by decide) (by decide)⟩

/-- C9: with a non-empty registry whose `activeRef` is not registered
(`indexOf` yields -1) and a non-input target, ArrowDown focuses the
first handle while ArrowUp focuses nothing. -/
theorem stale_active_arrow_moves (hhe : Bool) (state : IState) (tag : String)
    (hIn : tag ≠ "INPUT") (hTa : tag ≠ "TEXTAREA") (hne : state.refs ≠ [])
    (hIdx : jsIndexOf state.refs state.activeRef = -1) :
    (onKeyDownHandler hhe true state tag Key.ARROW_DOWN).focused
      = state.refs[0]? ∧
    (onKeyDownHandler hhe true state tag Key.ARROW_UP).focused = none := by
  have htag : (tag != "INPUT" && tag != "TEXTAREA") = true := by
    simp [bne_iff_ne, hIn, hTa]
  have hlen : 0 < state.refs.length := List.length_pos.mpr hne
  constructor
  · unfold onKeyDownHandler
    rw [if_pos htag]
    simp only [if_true, if_pos hlen, hIdx]
    rw [if_pos (by omega : (-1 : Int) < (state.refs.length : Int) - 1)]
    norm_num
  · unfold onKeyDownHandler
    rw [if_pos htag]
    simp only [if_true, if_pos hlen, hIdx]
    rw [if_neg (by omega : ¬ (0 : Int) < -1)]

/-- Witness for C9 at `{ activeRef := some 9, refs := [1, 2] }`: the
handle 9 is not registered, so `indexOf` is -1. -/
theorem stale_active_arrow_moves_witness :
    (onKeyDownHandler true true { activeRef := some 9, refs := [1, 2] } "DIV"
        Key.ARROW_DOWN).focused = [1, 2][0]? ∧
    (onKeyDownHandler true true { activeRef := some 9, refs := [1, 2] } "DIV"
        Key.ARROW_UP).focused = none :=
  stale_active_arrow_moves true { activeRef := some 9, refs := [1, 2] } "DIV"
    (by decide) (by decide) (by decide) (by decide)

/-- C10: a keydown whose target is an `INPUT` or `TEXTAREA` element is
ignored for every key: nothing is focused, the event is not claimed,
and the registry state is unchanged. -/
theorem input_textarea_target_ignored (hhe hud : Bool) (state : IState)
    (key : Key) (tag : String) (htag : tag = "INPUT" ∨ tag = "TEXTAREA") :
    onKeyDownHandler hhe hud state tag key
      = { focused := none, handled := false } ∧
    applyFocusResult state (onKeyDownHandler hhe hud state tag key)
      = state := by
  have hcond : (tag != "INPUT" && tag != "TEXTAREA") = false := by
    rcases htag with h | h <;> subst h <;> decide
  have h1 : onKeyDownHandler hhe hud state tag key
      = { focused := none, handled := false } := by
    unfold onKeyDownHandler
    rw [hcond]
    rfl
  exact ⟨h1, by rw [h1]; rfl⟩

/-- Witness for C10: an ArrowDown keydown on an `INPUT` target, state
`{ activeRef := some 1, refs := [1, 2] }`. -/
theorem input_textarea_target_ignored_witness :
    onKeyDownHandler true true { activeRef := some 1, refs := [1, 2] } "INPUT"
        Key.ARROW_DOWN = { focused := none, handled := false } ∧
    applyFocusResult { activeRef := some 1, refs := [1, 2] }
        (onKeyDownHandler true true { activeRef := some 1, refs := [1, 2] }
          "INPUT" Key.ARROW_DOWN)
      = { activeRef := some 1, refs := [1, 2] } :=
  input_textarea_target_ignored true true { activeRef := some 1, refs := [1, 2] }
    Key.ARROW_DOWN "INPUT" (Or.inl rfl)
